import Mathlib

/-!
Shallow embedding of the retrieval layer of the archie_goodwin_bot repository
(src/app/tools/factory.py, src/app/tools/shared.py, src/app/tools/vector_search.py).

Pure string manipulation is translated directly; the effectful tool bodies are
translated as functions that take the backend response as an explicit argument
and additionally return the list of backend operations they attempt, so that
claims about "no backend call" and "handle construction per call" are statements
about that event list.  Python falsiness of the payload values (`x or default`)
is modelled on a small dynamic-value type `PyVal`.
-/

namespace ArchieGoodwin

/-- Model of Python `str.isspace` characters relevant to `str.strip()`:
the ASCII whitespace characters.  Python also strips other Unicode whitespace;
the queries and citations exercised by the specification only use these. -/
def pyIsSpace (c : Char) : Bool :=
  c == ' ' || c == '\t' || c == '\n' || c == '\r' || c == '\x0b' || c == '\x0c'

/-- Model of Python `str.strip()`: drop leading and trailing whitespace. -/
def pyStrip (s : String) : String :=
  String.mk (((s.data.dropWhile pyIsSpace).reverse.dropWhile pyIsSpace).reverse)

/-- Model of the guard `if not x or not str(x).strip():` used at the top of
every tool body: the argument is empty or consists only of whitespace. -/
def isBlank (s : String) : Bool :=
  s == "" || pyStrip s == ""

/-- Dynamic payload value: the vector-store payload schema declares
`metadata.article_number` as "string or integer", and the numeric metadata
fields may be either. -/
inductive PyVal where
  | vStr (s : String)
  | vInt (n : Int)
  deriving DecidableEq

/-- Python truthiness of a payload value: `""` and `0` are falsy. -/
def pyTruthy : PyVal → Bool
  | .vStr s => s != ""
  | .vInt n => n != 0

/-- Python `str()` of a payload value, as used by f-string interpolation. -/
def pyStr : PyVal → String
  | .vStr s => s
  | .vInt n => toString n

/-- Model of `meta.get(k) or default` for a string default: a missing or falsy
value falls back to the default. -/
def pyOrStr (v : Option PyVal) (default : String) : String :=
  match v with
  | some x => if pyTruthy x then pyStr x else default
  | none => default

/-- Model of `payload.get(k)` restricted to truthy values, used to chain
`payload.get("page_content") or payload.get("text") or ""`. -/
def pyGetTruthy (v : Option PyVal) : Option String :=
  match v with
  | some x => if pyTruthy x then some (pyStr x) else none
  | none => none

/-- Value of a non-empty all-digit character list, as Python `int()` computes it. -/
def digitsToNat (l : List Char) : Nat :=
  l.foldl (fun acc c => 10 * acc + (c.toNat - '0'.toNat)) 0

/-- Model of Python `int(s)` on the digit-only strings produced by the
normalizer: succeeds exactly on a non-empty string of decimal digits
(`int()` would also accept signs and Unicode digits, which cannot occur here). -/
def pyIntParse (s : String) : Option Int :=
  if !s.data.isEmpty && s.data.all Char.isDigit then some ((digitsToNat s.data : Int))
  else none

/-- Embedding of `_normalize_article_number` (src/app/tools/factory.py lines
17-20): keep the digits and, only when the corpus allows fractional article
numbers, the dots.  Python `ch.isdigit()` also accepts non-ASCII Unicode
digits; the citations exercised here contain only ASCII digits and non-digit
Cyrillic letters, on which `Char.isDigit` agrees with it. -/
def _normalize_article_number (raw : String) (allow_fractional : Bool) : String :=
  if allow_fractional then
    String.mk (raw.data.filter fun ch => ch.isDigit || ch == '.')
  else
    String.mk (raw.data.filter fun ch => ch.isDigit)

/-- A value compared against `metadata.article_number` in a Qdrant
`MatchValue` condition: the source supplies either the canonical key string or
its integer parse. -/
inductive MatchVal where
  | s (v : String)
  | i (n : Int)
  deriving DecidableEq

/-- Embedding of the `should` condition list built by `exact_tool`
(src/app/tools/factory.py lines 74-86): always the string-equality condition
on the normalized key; when the key contains no ".", additionally the
integer-equality condition produced by `int(normalized)` inside a
`try/except` (modelled by `pyIntParse`). -/
def exact_should (normalized : String) : List MatchVal :=
  MatchVal.s normalized ::
    (if normalized.data.contains '.' then []
     else
       match pyIntParse normalized with
       | some n => [MatchVal.i n]
       | none => [])

/-- The four optional article metadata fields of a stored payload
(`chapter_title`, `chapter_number`, `article_title`, `article_number`). -/
structure PMeta where
  chapter_title : Option PyVal
  chapter_number : Option PyVal
  article_title : Option PyVal
  article_number : Option PyVal
  deriving DecidableEq

/-- A metadata record with every field absent, modelling an empty dict. -/
def emptyMeta : PMeta := ⟨none, none, none, none⟩

/-- A retrieved document as seen by `_format_docs` (src/app/tools/shared.py):
an optional metadata dict and the page content attribute. -/
structure Doc where
  metadata : Option PMeta
  page_content : Option PyVal
  deriving DecidableEq

/-- Model of the metadata fallback of `_format_docs`: a missing metadata dict
is read as an empty one. -/
def metaOfDoc (d : Doc) : PMeta := d.metadata.getD emptyMeta

/-- The lines of one formatted block of `_format_docs`
(src/app/tools/shared.py lines 43-48); the source builds them as one f-string
joined by newline characters. -/
def render_doc_lines (i : Nat) (d : Doc) : List String :=
  let meta := metaOfDoc d
  [ "[" ++ toString i ++ "]",
    "Глава: " ++ pyOrStr meta.chapter_title "" ++ " (номер: " ++ pyOrStr meta.chapter_number "" ++ ")",
    "Статья: " ++ pyOrStr meta.article_title "" ++ " (номер: " ++ pyOrStr meta.article_number "" ++ ")",
    "Содержание: " ++ pyOrStr d.page_content "" ]

/-- One formatted block of `_format_docs`: its lines joined by a newline. -/
def render_doc (i : Nat) (d : Doc) : String :=
  String.intercalate "\n" (render_doc_lines i d)

/-- Embedding of `_format_docs` (src/app/tools/shared.py lines 32-50):
the fixed sentinel on an empty list, otherwise the blocks of the documents
numbered from one and joined by blank lines. -/
def _format_docs (docs : List Doc) : String :=
  if docs.isEmpty then "No relevant documents found."
  else String.intercalate "\n\n" ((docs.enumFrom 1).map fun p => render_doc p.1 p.2)

/-- A stored point payload as read by `exact_tool`: the optional `metadata`
dict, the payload top-level fields used when `payload.get("metadata")` is
falsy, and the two content keys. -/
structure Payload where
  metadata : Option PMeta
  top : PMeta
  page_content : Option PyVal
  text : Option PyVal
  deriving DecidableEq

/-- A payload with nothing in it: the payload-or-empty-dict fallback of
`exact_tool` resolves a missing payload to this value. -/
def emptyPayload : Payload := ⟨none, emptyMeta, none, none⟩

/-- A point returned by `client.scroll`. -/
structure Point where
  payload : Option Payload
  deriving DecidableEq

/-- Model of the payload-or-empty-dict fallback followed by
`meta = payload.get("metadata") or payload`: when the metadata dict is
missing the article fields are read from the payload itself. -/
def metaOfPoint (p : Point) : PMeta :=
  let payload := p.payload.getD emptyPayload
  payload.metadata.getD payload.top

/-- Model of `payload.get("page_content") or payload.get("text") or ""`. -/
def contentOfPayload (payload : Payload) : String :=
  ((pyGetTruthy payload.page_content).or (pyGetTruthy payload.text)).getD ""

/-- Model of `article_num = meta.get("article_number") or normalized`
(src/app/tools/factory.py line 102): a missing or falsy stored article number
falls back to the normalized key supplied by the caller. -/
def article_num_shown (normalized : String) (meta : PMeta) : String :=
  pyOrStr meta.article_number normalized

/-- The lines of one formatted block of `exact_tool`
(src/app/tools/factory.py lines 96-109). -/
def render_point_lines (normalized : String) (idx : Nat) (p : Point) : List String :=
  let payload := p.payload.getD emptyPayload
  let meta := metaOfPoint p
  [ "[" ++ toString idx ++ "]",
    "Глава: " ++ pyOrStr meta.chapter_title "" ++ " (номер: " ++ pyOrStr meta.chapter_number "" ++ ")",
    "Статья: " ++ pyOrStr meta.article_title "" ++ " (номер: " ++ article_num_shown normalized meta ++ ")",
    "Содержание: " ++ contentOfPayload payload ]

/-- One formatted block of `exact_tool`: its lines joined by a newline. -/
def render_point (normalized : String) (idx : Nat) (p : Point) : String :=
  String.intercalate "\n" (render_point_lines normalized idx p)

/-- A backend operation attempted by `exact_tool`: one `client.scroll` call
with the collection name, the metadata filter conditions and the result limit. -/
inductive LookupEvent where
  | scroll (collection_name : String) (conds : List MatchVal) (limit : Nat)
  deriving DecidableEq

/-- Embedding of `exact_tool` (src/app/tools/factory.py lines 61-112).
The backend response to the single `client.scroll` call is passed in as an
`Except` (`Except.error` models a raised exception, caught by the source and
turned into a `Lookup failed:` string); the second component of the result is
the list of backend calls attempted, so the guard paths that return before
reaching the store produce an empty list. -/
def exact_tool (collection_name : String) (allow_fractional : Bool)
    (article_number : String) (backend : Except String (List Point)) :
    String × List LookupEvent :=
  if isBlank article_number then ("Article number is empty.", [])
  else
    let normalized := _normalize_article_number article_number allow_fractional
    if normalized == "" then ("Article number must contain digits.", [])
    else
      let conds := exact_should normalized
      let ev := [LookupEvent.scroll collection_name conds 10]
      match backend with
      | .error exc => ("Lookup failed: " ++ exc, ev)
      | .ok points =>
        if points.isEmpty then ("No article found with the specified number.", ev)
        else
          (String.intercalate "\n\n"
            ((points.enumFrom 1).map fun q => render_point normalized q.1 q.2), ev)

/-- A backend operation attempted by `search_tool`: constructing a
`QdrantVectorStore` handle for a collection, or running a similarity search
with a requested hit count. -/
inductive SearchEvent where
  | constructStore (collection_name : String)
  | similaritySearch (query : String) (k : Int)
  deriving DecidableEq

/-- Embedding of `search_tool` (src/app/tools/factory.py lines 38-59).
The body constructs a `QdrantVectorStore` and then calls
`similarity_search(query, k=max(1, int(top_k)))`; both operations are recorded
as events.  The backend response is passed in as an `Except`
(`Except.error` models a raised exception, caught and turned into a
`Search failed:` string). -/
def search_tool (collection_name : String) (query : String) (top_k : Int)
    (backend : Except String (List Doc)) : String × List SearchEvent :=
  if isBlank query then ("Query is empty.", [])
  else
    let ev := [SearchEvent.constructStore collection_name,
               SearchEvent.similaritySearch query (max 1 top_k)]
    match backend with
    | .error exc => ("Search failed: " ++ exc, ev)
    | .ok docs => (_format_docs docs, ev)

/-- One invocation of a corpus search capability: the query, the requested
hit count and the backend response it would receive. -/
structure SearchCall where
  query : String
  top_k : Int
  backend : Except String (List Doc)

/-- The backend operations attempted by a sequence of calls to the search
capability of one corpus. -/
def search_calls_trace (collection_name : String) (calls : List SearchCall) :
    List SearchEvent :=
  (calls.map fun c => (search_tool collection_name c.query c.top_k c.backend).2).flatten

/-- Whether an event is a vector-store handle construction. -/
def isConstruct : SearchEvent → Bool
  | .constructStore _ => true
  | _ => false

/-- Number of vector-store handle constructions in a trace. -/
def construct_count (t : List SearchEvent) : Nat :=
  (t.filter isConstruct).length

/-- The hit counts requested from the backend by the search events of a trace. -/
def requested_ks (t : List SearchEvent) : List Int :=
  t.filterMap fun e =>
    match e with
    | .similaritySearch _ k => some k
    | _ => none

/-! Helper lemmas. -/

/-- The data of a string built from a character list is that list. -/
theorem data_mk (l : List Char) : (String.mk l).data = l := rfl

/-- A string distinct from the empty string has a non-empty character list. -/
theorem data_ne_nil_of_ne_empty (s : String) (h : s ≠ "") : s.data ≠ [] := by
  intro hd
  apply h
  cases s with
  | mk l =>
    have hl : l = [] := hd
    subst hl
    rfl

/-- Every character of a normalized article number is a digit or a dot. -/
theorem mem_normalize_digit_or_dot (raw : String) (f : Bool) (c : Char)
    (hc : c ∈ (_normalize_article_number raw f).data) :
    (c.isDigit || c == '.') = true := by
  cases f <;> simp [_normalize_article_number, data_mk, List.mem_filter] at hc <;>
    simp [hc]

/-- Claim C5 (proved below) rests on this: filtering twice with the same
predicate equals filtering once. -/
theorem filter_self_idem (p : Char → Bool) (l : List Char) :
    (l.filter p).filter p = l.filter p := by
  rw [List.filter_filter]
  apply List.filter_congr
  intro a _
  exact Bool.and_self (p a)

/-- Each call to the factory search tool constructs exactly one vector-store
handle when the query is non-blank, and none when it is blank. -/
theorem construct_count_call (name q : String) (k : Int)
    (b : Except String (List Doc)) :
    construct_count (search_tool name q k b).2 = if isBlank q then 0 else 1 := by
  by_cases h : isBlank q = true
  · simp [search_tool, construct_count, h]
  · have h' : isBlank q = false := by simpa using h
    cases b <;> simp [search_tool, construct_count, h', isConstruct]

/-- The trace of a sequence of search calls decomposes call by call. -/
theorem search_calls_trace_cons (name : String) (c : SearchCall)
    (cs : List SearchCall) :
    search_calls_trace name (c :: cs) =
      (search_tool name c.query c.top_k c.backend).2 ++ search_calls_trace name cs := by
  simp [search_calls_trace]

/-- Construction counts add over concatenated traces. -/
theorem construct_count_append (a b : List SearchEvent) :
    construct_count (a ++ b) = construct_count a + construct_count b := by
  simp [construct_count, List.filter_append]

/-! Theorems for the claims. -/

/-- Claim C5: normalization is idempotent — for every input string and every
value of the fractional flag, normalizing an already-normalized citation
yields the same canonical key. -/
theorem normalize_idempotent (s : String) (f : Bool) :
    _normalize_article_number (_normalize_article_number s f) f =
      _normalize_article_number s f := by
  cases f <;> simp [_normalize_article_number, data_mk, filter_self_idem]

/-- Claim C6, counterexample: normalizing the citation with the fractional
flag set keeps the dot of the prefix, so the canonical key is ".12.9", not
the "12.9" the claim states. -/
theorem normalize_st_12_9_counterexample :
    _normalize_article_number "ст. 12.9" true = ".12.9" ∧
    _normalize_article_number "ст. 12.9" true ≠ "12.9" := by
  constructor <;> decide

/-- Claim C6 as amended: normalizing "ст. 12.9" yields ".12.9" when the
corpus allows fractional article numbers (the dot of the "ст." prefix is
retained along with the fractional dot) and "129" when it does not. -/
theorem normalize_st_12_9 :
    _normalize_article_number "ст. 12.9" true = ".12.9" ∧
    _normalize_article_number "ст. 12.9" false = "129" := by
  constructor <;> decide

/-- Claim C7: formatting an empty retrieval result returns the fixed
non-empty nothing-found sentinel, never the empty string. -/
theorem format_docs_empty_sentinel :
    _format_docs [] = "No relevant documents found." ∧ _format_docs [] ≠ "" := by
  constructor <;> decide

/-- Claim C8: for every empty or whitespace-only query text, the search
capability returns the empty-query error string locally and attempts no
backend operation (no handle construction, no similarity search); the
embedding is a total function, so no exception crosses the boundary. -/
theorem search_tool_blank_query (name q : String) (k : Int)
    (b : Except String (List Doc)) (h : q.data.all pyIsSpace = true) :
    search_tool name q k b = ("Query is empty.", []) := by
  have hdrop : q.data.dropWhile pyIsSpace = [] := by
    rw [List.dropWhile_eq_nil_iff]
    intro x hx
    exact List.all_eq_true.mp h x hx
  have hstrip : pyStrip q = "" := by
    simp [pyStrip, hdrop]
  have hblank : isBlank q = true := by
    simp [isBlank, hstrip]
  simp [search_tool, hblank]

/-- Witness for claim C8 at the whitespace-only query "   ". -/
theorem search_tool_blank_query_witness :
    search_tool "uk_1996" "   " 5 (Except.ok []) = ("Query is empty.", []) :=
  search_tool_blank_query "uk_1996" "   " 5 (Except.ok []) (by decide)

/-- Claim C9: a non-blank search request asks the backend for exactly
`max 1 top_k` hits, and for a non-positive `top_k` that bound is 1 — the
value is coerced upward, not rejected. -/
theorem search_tool_requested_k (name q : String) (k : Int)
    (b : Except String (List Doc)) (h : isBlank q = false) :
    requested_ks (search_tool name q k b).2 = [max 1 k] ∧
      (k ≤ 0 → max 1 k = 1) := by
  constructor
  · cases b <;> simp [search_tool, h, requested_ks]
  · intro hk
    exact max_eq_left (by omega)

/-- Witness for claim C9 at `top_k = 0`: the backend is asked for one hit. -/
theorem search_tool_requested_k_witness :
    requested_ks (search_tool "uk_1996" "мошенничество" 0 (Except.ok [])).2 = [1] := by
  have h := search_tool_requested_k "uk_1996" "мошенничество" 0 (Except.ok []) (by decide)
  rw [h.1]
  decide

/-- Claim C10: in the exact-lookup rendering, a point whose resolved metadata
has no `article_number` (or a falsy one) shows the normalized canonical key
supplied by the caller in the article line. -/
theorem article_num_fallback (norm : String) (idx : Nat) (p : Point)
    (h : (metaOfPoint p).article_number = none ∨
         ∃ v, (metaOfPoint p).article_number = some v ∧ pyTruthy v = false) :
    article_num_shown norm (metaOfPoint p) = norm ∧
    (render_point_lines norm idx p)[2]? =
      some ("Статья: " ++ pyOrStr (metaOfPoint p).article_title "" ++
            " (номер: " ++ norm ++ ")") := by
  have hshown : article_num_shown norm (metaOfPoint p) = norm := by
    rcases h with h | ⟨v, hv, hf⟩
    · simp [article_num_shown, pyOrStr, h]
    · simp [article_num_shown, pyOrStr, hv, hf]
  refine ⟨hshown, ?_⟩
  simp [render_point_lines, hshown]

/-- Witness for claim C10 at a point with no payload at all. -/
theorem article_num_fallback_witness :
    article_num_shown "159" (metaOfPoint (Point.mk none)) = "159" ∧
    (render_point_lines "159" 1 (Point.mk none))[2]? =
      some "Статья:  (номер: 159)" := by
  have h := article_num_fallback "159" 1 (Point.mk none) (Or.inl rfl)
  exact ⟨h.1, by rw [h.2]; decide⟩

/-- Claim C3, counterexample: a document with its metadata entirely missing
still renders a chapter line and an article line (with empty values); the
lines are not omitted as the claim states. -/
theorem format_docs_lines_counterexample :
    (Doc.mk none (some (PyVal.vStr "тело"))).metadata = none ∧
    "Глава:  (номер: )" ∈ render_doc_lines 1 (Doc.mk none (some (PyVal.vStr "тело"))) ∧
    "Статья:  (номер: )" ∈ render_doc_lines 1 (Doc.mk none (some (PyVal.vStr "тело"))) ∧
    _format_docs [Doc.mk none (some (PyVal.vStr "тело"))] =
      "[1]\nГлава:  (номер: )\nСтатья:  (номер: )\nСодержание: тело" := by
  refine ⟨rfl, by decide, by decide, by decide⟩

/-- Claim C3 as amended: a record with missing chapter metadata renders the
chapter line with empty title and number slots, and a record with missing
article metadata renders the article line likewise; neither line is omitted. -/
theorem format_docs_missing_meta_lines (i : Nat) (d : Doc) :
    ((metaOfDoc d).chapter_title = none → (metaOfDoc d).chapter_number = none →
      (render_doc_lines i d)[1]? = some "Глава:  (номер: )") ∧
    ((metaOfDoc d).article_title = none → (metaOfDoc d).article_number = none →
      (render_doc_lines i d)[2]? = some "Статья:  (номер: )") := by
  constructor
  · intro h1 h2
    simp [render_doc_lines, h1, h2, pyOrStr]
  · intro h1 h2
    simp [render_doc_lines, h1, h2, pyOrStr]

/-- Witness for the amended claim C3 at a document without metadata. -/
theorem format_docs_missing_meta_lines_witness :
    (render_doc_lines 1 (Doc.mk none (some (PyVal.vStr "тело"))))[1]? =
      some "Глава:  (номер: )" ∧
    (render_doc_lines 1 (Doc.mk none (some (PyVal.vStr "тело"))))[2]? =
      some "Статья:  (номер: )" :=
  ⟨(format_docs_missing_meta_lines 1 (Doc.mk none (some (PyVal.vStr "тело")))).1 rfl rfl,
   (format_docs_missing_meta_lines 1 (Doc.mk none (some (PyVal.vStr "тело")))).2 rfl rfl⟩

/-- Claim C4, counterexample: the citation "." on a fractional corpus
normalizes to "." — zero digits — yet the lookup does not fail locally with
the digits error: it issues a backend scroll with the string condition ".".
Moreover an empty citation returns the empty-input string, which differs from
the digits (invalid-reference) string the claim names. -/
theorem exact_tool_zero_digit_counterexample :
    exact_tool "koap_2001" true "." (Except.ok []) =
      ("No article found with the specified number.",
       [LookupEvent.scroll "koap_2001" [MatchVal.s "."] 10]) ∧
    (_normalize_article_number "." true).data.any Char.isDigit = false ∧
    exact_tool "uk_1996" false "" (Except.ok []) = ("Article number is empty.", []) ∧
    ("Article number is empty." : String) ≠ "Article number must contain digits." := by
  refine ⟨by decide, by decide, by decide, by decide⟩

/-- Claim C4 as amended: a citation whose normalization is the empty string
fails locally — with the empty-input string when the citation is blank and
with the invalid-reference (digits) string otherwise — and no backend call is
attempted in either case. -/
theorem exact_tool_empty_normalization (name : String) (f : Bool) (a : String)
    (b : Except String (List Point)) (h : _normalize_article_number a f = "") :
    exact_tool name f a b =
      ((if isBlank a then "Article number is empty."
        else "Article number must contain digits."), []) := by
  by_cases hb : isBlank a = true
  · simp [exact_tool, hb]
  · have hb' : isBlank a = false := by simpa using hb
    simp [exact_tool, hb', h]

/-- Witness for the amended claim C4 at the whitespace-only citation. -/
theorem exact_tool_empty_normalization_witness :
    exact_tool "uk_1996" false "   " (Except.ok []) = ("Article number is empty.", []) := by
  have h := exact_tool_empty_normalization "uk_1996" false "   " (Except.ok []) (by decide)
  rw [h]
  decide

/-- Claim C2, counterexample: two successive non-blank search calls against
the same corpus key each construct a vector-store handle — the trace holds
two constructions, refuting "constructed at most once and reused". -/
theorem search_constructs_twice_counterexample :
    construct_count (search_calls_trace "gk_1994"
      [⟨"договор", 5, Except.ok []⟩, ⟨"имущество", 5, Except.ok []⟩]) = 2 ∧
    ¬ construct_count (search_calls_trace "gk_1994"
      [⟨"договор", 5, Except.ok []⟩, ⟨"имущество", 5, Except.ok []⟩]) ≤ 1 := by
  constructor <;> decide

/-- Claim C2 as amended: a vector-store handle is constructed anew on every
search call that passes the blank-query check — the number of constructions
in a call sequence equals the number of its non-blank calls, not at most one
per corpus key. -/
theorem construct_count_eq_nonblank_calls (name : String) (calls : List SearchCall) :
    construct_count (search_calls_trace name calls) =
      (calls.filter fun c => !(isBlank c.query)).length := by
  induction calls with
  | nil => rfl
  | cons c cs ih =>
    rw [search_calls_trace_cons, construct_count_append, construct_count_call, ih]
    by_cases h : isBlank c.query = true
    · simp [h, List.filter_cons]
    · have h' : isBlank c.query = false := by simpa using h
      simp [h', List.filter_cons, Nat.add_comm]

/-- Claim C1: for a non-empty canonical key produced by the normalizer, the
exact-lookup filter is the string-equality condition followed by the
integer-equality condition exactly when the key has no dot, and the
string-equality condition alone when it has one; with both conditions present
a stored article number matches whether persisted as the key string or as its
integer value. -/
theorem exact_should_dual_of_normalize (raw : String) (f : Bool) (key : String)
    (hkey : key = _normalize_article_number raw f) (hne : key ≠ "") :
    (key.data.contains '.' = false →
        pyIntParse key = some ((digitsToNat key.data : Int)) ∧
        exact_should key = [MatchVal.s key, MatchVal.i ((digitsToNat key.data : Int))] ∧
        MatchVal.s key ∈ exact_should key ∧
        MatchVal.i ((digitsToNat key.data : Int)) ∈ exact_should key) ∧
    (key.data.contains '.' = true → exact_should key = [MatchVal.s key]) := by
  constructor
  · intro hdot
    have hdigits : key.data.all Char.isDigit = true := by
      rw [List.all_eq_true]
      intro c hc
      have hcd := mem_normalize_digit_or_dot raw f c (hkey ▸ hc)
      rcases Bool.or_eq_true_iff.mp hcd with hd | hd
      · exact hd
      · exfalso
        have hceq : c = '.' := by simpa using hd
        subst hceq
        have hcont : key.data.contains '.' = true := List.elem_eq_true_of_mem hc
        rw [hcont] at hdot
        exact absurd hdot (by decide)
    have hnil : key.data.isEmpty = false := by
      have := data_ne_nil_of_ne_empty key hne
      cases hd : key.data with
      | nil => exact absurd hd this
      | cons x xs => rfl
    have hparse : pyIntParse key = some ((digitsToNat key.data : Int)) := by
      simp [pyIntParse, hdigits, hnil]
    have heq : exact_should key =
        [MatchVal.s key, MatchVal.i ((digitsToNat key.data : Int))] := by
      unfold exact_should
      simp only [hdot, hparse]
      simp
    refine ⟨hparse, heq, ?_, ?_⟩ <;> rw [heq] <;> simp
  · intro hdot
    unfold exact_should
    simp only [hdot]
    simp

/-- Witness for claim C1 at the citation "ст. 10" on a non-fractional corpus:
the key is "10" and the filter carries both the string and the integer form. -/
theorem exact_should_dual_witness :
    _normalize_article_number "ст. 10" false = "10" ∧
    exact_should (_normalize_article_number "ст. 10" false) =
      [MatchVal.s (_normalize_article_number "ст. 10" false),
       MatchVal.i ((digitsToNat (_normalize_article_number "ст. 10" false).data : Int))] := by
  refine ⟨by decide, ?_⟩
  exact ((exact_should_dual_of_normalize "ст. 10" false _ rfl (by decide)).1
    (by decide)).2.1

end ArchieGoodwin

